import Mathlib

/-!
Verification of the area-resolution and settings-assembly pipeline of the
prettymapp web front-end (`src/utils.py` and `src/app.py`).

The embedding models Python dictionaries as association lists over `String`
keys, rational numbers stand in for the coordinate floats, and the two
external collaborators (`get_aoi` from `prettymapp.geo` and
`get_osm_geometries` from `prettymapp.osm`) are parameters of the pipeline.
The `Plot(**plot_params)` render call is recorded as the dictionary of
parameters it receives.
-/

set_option autoImplicit false

namespace PrettymapRevamped

/-! ## Python dictionaries as association lists

A Python `dict` with string keys is modelled as a `List (String × α)` with
no duplicate keys; insertion order is preserved, `d[k] = v` replaces the
value in place for an existing key and appends for a new key, and
`d.update(o)` assigns every entry of `o` into `d` in order.
-/

/-- First value stored under key `k`, i.e. Python `d.get(k)`. -/
def dlookup {α : Type} : List (String × α) → String → Option α
  | [], _ => none
  | p :: rest, k => if p.1 = k then some p.2 else dlookup rest k

/-- Python `k in d`. -/
def dcontains {α : Type} : List (String × α) → String → Bool
  | [], _ => false
  | p :: rest, k => if p.1 = k then true else dcontains rest k

/-- Python `d[k] = v`: replace in place when the key exists, append otherwise. -/
def dset {α : Type} (d : List (String × α)) (k : String) (v : α) :
    List (String × α) :=
  if dcontains d k then d.map (fun p => if p.1 = k then (k, v) else p)
  else d ++ [(k, v)]

/-- Python `d.update(o)`: assign every entry of `o` into `d`, in order. -/
def dupdate {α : Type} (d o : List (String × α)) : List (String × α) :=
  o.foldl (fun acc p => dset acc p.1 p.2) d

/-- Left-biased choice on options, used to state lookup lemmas. -/
def ofirst {α : Type} : Option α → Option α → Option α
  | some v, _ => some v
  | none, o => o

theorem dlookup_eq_none_of_not_mem {α : Type} (d : List (String × α)) (k : String)
    (h : k ∉ d.map Prod.fst) : dlookup d k = none := by
  induction d with
  | nil => rfl
  | cons p rest ih =>
    simp only [List.map_cons, List.mem_cons] at h
    push_neg at h
    show (if p.1 = k then some p.2 else dlookup rest k) = none
    rw [if_neg (Ne.symm h.1)]
    exact ih h.2

theorem dlookup_map_replace_self {α : Type} (d : List (String × α)) (k : String)
    (v : α) (hc : dcontains d k = true) :
    dlookup (d.map (fun p => if p.1 = k then (k, v) else p)) k = some v := by
  induction d with
  | nil => simp [dcontains] at hc
  | cons p rest ih =>
    by_cases hp : p.1 = k
    · simp [dlookup, hp]
    · show dlookup ((if p.1 = k then (k, v) else p) ::
        rest.map (fun p => if p.1 = k then (k, v) else p)) k = some v
      rw [if_neg hp]
      show (if p.1 = k then some p.2 else _) = some v
      rw [if_neg hp]
      have hc' : dcontains rest k = true := by
        have : (if p.1 = k then true else dcontains rest k) = true := hc
        rwa [if_neg hp] at this
      exact ih hc'

theorem dlookup_map_replace_ne {α : Type} (d : List (String × α)) (k j : String)
    (v : α) (h : j ≠ k) :
    dlookup (d.map (fun p => if p.1 = k then (k, v) else p)) j = dlookup d j := by
  induction d with
  | nil => rfl
  | cons p rest ih =>
    show dlookup ((if p.1 = k then (k, v) else p) ::
      rest.map (fun p => if p.1 = k then (k, v) else p)) j = _
    by_cases hp : p.1 = k
    · rw [if_pos hp]
      show (if k = j then some v else _) = _
      rw [if_neg (Ne.symm h)]
      show _ = (if p.1 = j then some p.2 else dlookup rest j)
      rw [if_neg (fun hpj => h (hp ▸ hpj : (k = j)).symm)]
      exact ih
    · rw [if_neg hp]
      show (if p.1 = j then some p.2 else _) = (if p.1 = j then some p.2 else _)
      by_cases hj : p.1 = j
      · simp [hj]
      · rw [if_neg hj, if_neg hj]
        exact ih

theorem dlookup_append_single_self {α : Type} (d : List (String × α)) (k : String)
    (v : α) (hc : dcontains d k = false) :
    dlookup (d ++ [(k, v)]) k = some v := by
  induction d with
  | nil => simp [dlookup]
  | cons p rest ih =>
    by_cases hp : p.1 = k
    · simp [dcontains, hp] at hc
    · have hc' : dcontains rest k = false := by
        have : (if p.1 = k then true else dcontains rest k) = false := hc
        rwa [if_neg hp] at this
      show (if p.1 = k then some p.2 else dlookup (rest ++ [(k, v)]) k) = some v
      rw [if_neg hp]
      exact ih hc'

theorem dlookup_append_single_ne {α : Type} (d : List (String × α)) (k j : String)
    (v : α) (h : j ≠ k) : dlookup (d ++ [(k, v)]) j = dlookup d j := by
  induction d with
  | nil =>
    show (if k = j then some v else none) = none
    rw [if_neg (Ne.symm h)]
  | cons p rest ih =>
    show (if p.1 = j then some p.2 else _) = (if p.1 = j then some p.2 else _)
    by_cases hj : p.1 = j
    · simp [hj]
    · rw [if_neg hj, if_neg hj]
      exact ih

theorem dlookup_dset_self {α : Type} (d : List (String × α)) (k : String) (v : α) :
    dlookup (dset d k v) k = some v := by
  unfold dset
  by_cases hc : dcontains d k
  · rw [if_pos hc]
    exact dlookup_map_replace_self d k v hc
  · rw [if_neg hc]
    exact dlookup_append_single_self d k v (Bool.not_eq_true _ ▸ hc)

theorem dlookup_dset_ne {α : Type} (d : List (String × α)) (k j : String) (v : α)
    (h : j ≠ k) : dlookup (dset d k v) j = dlookup d j := by
  unfold dset
  by_cases hc : dcontains d k
  · rw [if_pos hc]
    exact dlookup_map_replace_ne d k j v h
  · rw [if_neg hc]
    exact dlookup_append_single_ne d k j v h

theorem dlookup_dupdate {α : Type} (d o : List (String × α))
    (ho : (o.map Prod.fst).Nodup) (j : String) :
    dlookup (dupdate d o) j = ofirst (dlookup o j) (dlookup d j) := by
  induction o generalizing d with
  | nil => rfl
  | cons p rest ih =>
    obtain ⟨hp, hrest⟩ := List.nodup_cons.mp ho
    show dlookup (dupdate (dset d p.1 p.2) rest) j = _
    rw [ih (dset d p.1 p.2) hrest]
    by_cases hj : j = p.1
    · rw [hj, dlookup_eq_none_of_not_mem rest p.1 hp, dlookup_dset_self]
      show ofirst none (some p.2) =
        ofirst (if p.1 = p.1 then some p.2 else dlookup rest p.1) (dlookup d p.1)
      rw [if_pos rfl]
      rfl
    · rw [dlookup_dset_ne d p.1 j p.2 hj]
      show ofirst (dlookup rest j) (dlookup d j) =
        ofirst (if p.1 = j then some p.2 else dlookup rest j) (dlookup d j)
      rw [if_neg (fun hpj => hj hpj.symm)]

/-! ## Leaf values of style and landcover dictionaries

Style leaves in `prettymapp.settings.STYLES` are numbers, strings
(colour hex codes), or lists of strings; landcover leaves are booleans or
lists of selectable tag strings.  One value type covers both.
-/

/-- A leaf value of a style or landcover dictionary. -/
inductive Val : Type
  | str (s : String)
  | num (q : ℚ)
  | vbool (b : Bool)
  | vlist (l : List String)
deriving DecidableEq, Repr

/-- A two-level Python dictionary: category name to leaf-key/value mapping,
the shape of a single style preset and of `LANDCOVER_CLASSES`. -/
abbrev SettingsDict : Type := List (String × List (String × Val))

/-! ## Geometry: `shapely.geometry.shape` and `.bounds`

`generate_map` (src/utils.py lines 36-39) converts the GeoJSON dictionary
with `shape(geometry)` and reads `geom.bounds`.  A GeoJSON input is a point,
a polygon given by its exterior ring, or something `shape` rejects.
Coordinates are rationals standing in for the floats.
-/

/-- A GeoJSON geometry as handed to `shape`. -/
inductive Geometry : Type
  | point (x y : ℚ)
  | polygon (ring : List (ℚ × ℚ))
  | invalid
deriving DecidableEq, Repr

/-- The failures the pipeline can surface (spec §7 taxonomy restricted to
what src/utils.py can actually raise): `shape` rejecting the input,
`get_aoi` raising (re-raised at line 49), and the `KeyError` of
`STYLES[style]` at line 64. -/
inductive Err : Type
  | invalidGeometry
  | aoiFailed (msg : String)
  | unknownStyleName (name : String)
deriving DecidableEq, Repr

/-- `shape(geometry)` followed by `geom.bounds` (src/utils.py lines 36-39):
the axis-aligned extent (minx, miny, maxx, maxy) of the coordinates.
`shape` raises on an undecodable input and on an empty ring; no other
validation happens at this stage. -/
def boundsOf : Geometry → Except Err (ℚ × ℚ × ℚ × ℚ)
  | .point x y => .ok (x, y, x, y)
  | .polygon [] => .error .invalidGeometry
  | .polygon (p :: ps) =>
      .ok (ps.foldl
        (fun acc q =>
          (min acc.1 q.1, min acc.2.1 q.2, max acc.2.2.1 q.1, max acc.2.2.2 q.2))
        (p.1, p.2, p.1, p.2))
  | .invalid => .error .invalidGeometry

/-! ## Feature tables and the external collaborators -/

/-- The `GeoDataFrame` returned by `get_osm_geometries`: a geometry column in
some coordinate reference system plus feature rows; only the CRS code and the
row count matter to the claims. -/
structure FeatureTable : Type where
  crs : ℤ
  nrows : ℕ
deriving DecidableEq, Repr

/-- Decidable equality of `Except` results, so that concrete pipeline runs
can be checked by evaluation. -/
instance exceptDecEq {ε α : Type} [DecidableEq ε] [DecidableEq α] :
    DecidableEq (Except ε α)
  | .error x, .error y =>
    if h : x = y then .isTrue (congrArg Except.error h)
    else .isFalse (fun hh => h (Except.error.inj hh))
  | .error _, .ok _ => .isFalse (fun hh => Except.noConfusion hh)
  | .ok _, .error _ => .isFalse (fun hh => Except.noConfusion hh)
  | .ok x, .ok y =>
    if h : x = y then .isTrue (congrArg Except.ok h)
    else .isFalse (fun hh => h (Except.ok.inj hh))

/-- Opaque handle for the AOI object built by `prettymapp.geo.get_aoi`. -/
abbrev AOI : Type := ℕ

/-- The environment of `generate_map`: the external collaborators it calls
and the preset tables imported from `prettymapp.settings`. -/
structure Env : Type where
  STYLES : List (String × SettingsDict)
  LANDCOVER_CLASSES : SettingsDict
  get_aoi : Geometry → Except String AOI
  get_osm_geometries : AOI → SettingsDict → FeatureTable

/-- Collaborator invocations, recorded in order: `get_osm_geometries`
(the fetch collaborator) and `Plot(**plot_params)` (the render
collaborator). -/
inductive Event : Type
  | fetchCall
  | renderCall
deriving DecidableEq, Repr

/-! ## Projection resolution -/

/-- Modelled from the spec: the Projection Resolver `resolve_crs` (spec §4.2)
has no implementation under src/ — `generate_map` (src/utils.py lines 36-49)
only extracts bounds and delegates AOI construction to the external
`get_aoi`, while the spec records that later revisions of the repository add
the automatic UTM-zone selection.  Zone number per the spec's words:
`floor((cx + 180) / 6) + 1`, clamped to [1, 60]. -/
def utm_zone (cx : ℚ) : ℤ :=
  max 1 (min 60 (⌊(cx + 180) / 6⌋ + 1))

/-- Modelled from the spec: identifier for the bounding box
(minx, miny, maxx, maxy) with centroid (cx, cy) — base offset 32600 for the
northern hemisphere (cy ≥ 0), 32700 for the southern, plus the zone
number. -/
def resolve_crs (bbox : ℚ × ℚ × ℚ × ℚ) : ℤ :=
  let cx := (bbox.1 + bbox.2.2.1) / 2
  let cy := (bbox.2.1 + bbox.2.2.2) / 2
  (if 0 ≤ cy then 32600 else 32700) + utm_zone cx

/-! ## The settings-assembly steps inside `generate_map` -/

/-- src/utils.py line 57: `custom_landcover if custom_landcover else
get_default_landcover()` — the empty dictionary (and `None`, both modelled
as `[]`) is falsy, so any non-empty override replaces the defaults
wholesale. -/
def chooseLandcover (custom default_lc : SettingsDict) : SettingsDict :=
  if custom = [] then default_lc else custom

/-- src/utils.py line 64: `STYLES[style]` — the `.copy()` is a fresh outer
dictionary with the same entries; a missing key raises `KeyError`, surfaced
as `UnknownStyleName` with no fallback. -/
def style_lookup (styles : List (String × SettingsDict)) (name : String) :
    Except Err SettingsDict :=
  match dlookup styles name with
  | some s => .ok s
  | none => .error (.unknownStyleName name)

/-! ## Plot parameters (src/utils.py lines 69-113) -/

/-- A value stored in `plot_options` or `plot_params`; `pnone` is Python's
`None` (the app sends it for the background shape "None"). -/
inductive PVal : Type
  | str (s : String)
  | int (n : ℤ)
  | bool (b : Bool)
  | pnone
  | table (t : FeatureTable)
  | bnds (b : ℚ × ℚ × ℚ × ℚ)
  | settings (s : SettingsDict)
deriving DecidableEq, Repr

/-- Python truthiness of a `PVal`, used by `if plot_params["name_on"]:`. -/
def pyTruthy : PVal → Bool
  | .str s => s ≠ ""
  | .int n => n ≠ 0
  | .bool b => b
  | .pnone => false
  | .table t => t.nrows ≠ 0
  | .bnds _ => true
  | .settings s => s ≠ []

/-- `if src in plot_options: plot_params[dst] = plot_options[src]` — the
guarded copy used for every optional plot parameter. -/
def copyOpt (p po : List (String × PVal)) (dst src : String) :
    List (String × PVal) :=
  match dlookup po src with
  | some v => dset p dst v
  | none => p

/-- The `plot_params` dictionary built for `Plot(**plot_params)`
(src/utils.py lines 69-113): always `df`, `aoi_bounds` and `draw_settings`;
when `plot_options` is truthy, the optional cosmetic keys are copied when
present, `name_on` is set to `plot_options.get("display_title", False)`, and
the font/position keys are copied (from the `text_*`/`display_title` names)
only when that value is truthy. -/
def buildPlotParams (df : FeatureTable) (bds : ℚ × ℚ × ℚ × ℚ)
    (draw_settings : SettingsDict) (po : List (String × PVal)) :
    List (String × PVal) :=
  let p : List (String × PVal) :=
    [("df", .table df), ("aoi_bounds", .bnds bds),
     ("draw_settings", .settings draw_settings)]
  if po = [] then p
  else
    let p := copyOpt p po "shape" "shape"
    let p := copyOpt p po "bg_shape" "bg_shape"
    let p := copyOpt p po "bg_color" "bg_color"
    let p := copyOpt p po "bg_buffer" "bg_buffer"
    let p := copyOpt p po "contour_color" "contour_color"
    let p := copyOpt p po "contour_width" "contour_width"
    let nameOn := (dlookup po "display_title").getD (.bool false)
    let p := dset p "name_on" nameOn
    if pyTruthy nameOn then
      let p := copyOpt p po "font_size" "text_size"
      let p := copyOpt p po "font_color" "text_color"
      let p := copyOpt p po "text_x" "text_x"
      let p := copyOpt p po "text_y" "text_y"
      copyOpt p po "text_rotation" "text_rotation"
    else p

/-- The recorded `Plot(**plot_params)` render invocation. -/
structure PlotCall : Type where
  params : List (String × PVal)
deriving DecidableEq, Repr

/-! ## The pipeline `generate_map` (src/utils.py lines 27-119) -/

/-- `generate_map(geometry, style, custom_settings, custom_landcover,
plot_options)`: bounds extraction, `get_aoi` (re-raising its exception),
landcover choice, the `get_osm_geometries` fetch, `STYLES[style]` with the
`custom_settings` update, and the `Plot` construction; returns `(fig, df)`.
The second component of the result lists the collaborator invocations that
happened, in order.  `None` arguments are modelled as `[]`. -/
def generate_map (env : Env) (geometry : Geometry) (style : String)
    (custom_settings : SettingsDict) (custom_landcover : SettingsDict)
    (plot_options : List (String × PVal)) :
    Except Err (PlotCall × FeatureTable) × List Event :=
  match boundsOf geometry with
  | .error e => (.error e, [])
  | .ok bds =>
    match env.get_aoi geometry with
    | .error msg => (.error (.aoiFailed msg), [])
    | .ok aoi =>
      let landcover := chooseLandcover custom_landcover env.LANDCOVER_CLASSES
      let df := env.get_osm_geometries aoi landcover
      match style_lookup env.STYLES style with
      | .error e => (.error e, [.fetchCall])
      | .ok base =>
        let draw_settings := dupdate base custom_settings
        let plot_params := buildPlotParams df bds draw_settings plot_options
        (.ok (⟨plot_params⟩, df), [.fetchCall, .renderCall])

/-! ## Settings assembly in src/app.py (lines 33-34 and 118-163)

`get_default_style()` returns `STYLES["Peach"].copy()` and
`get_default_landcover()` returns `LANDCOVER_CLASSES.copy()`
(src/utils.py lines 19-25).  `.copy()` is shallow: the outer dictionary is
fresh but the per-category inner dictionaries are shared with the preset
constants.  The app's widget loops then assign
`default_style[category][key] = widget_value` through those shared inner
dictionaries.  To capture the sharing, inner dictionaries live in a heap
addressed by `ℕ`; an outer dictionary maps category names to addresses,
and `.copy()` duplicates only the outer list of addresses.
-/

/-- The heap of inner (per-category) dictionaries; Python object identity is
the address. -/
def Heap : Type := ℕ → List (String × Val)

/-- Overwrite the inner dictionary at one address. -/
def hwrite (h : Heap) (a : ℕ) (inner : List (String × Val)) : Heap :=
  fun x => if x = a then inner else h x

/-- One pass of the widget loop over a category's inner dictionary: every
existing key is assigned the widget's returned value `w category key`
(src/app.py lines 124-142 and 150-163; assigning an existing key keeps the
key order). -/
def refreshLeaves (w : String → String → Val) (c : String)
    (inner : List (String × Val)) : List (String × Val) :=
  inner.map (fun p => (p.1, w c p.1))

/-- `dict.copy()` of an outer dictionary: a fresh outer list carrying the
same inner-dictionary addresses. -/
def shallowCopy (outer : List (String × ℕ)) : List (String × ℕ) := outer

/-- The app's settings-assembly loop (src/app.py lines 118-163): for each
`(category, settings)` of the copied outer dictionary, every leaf of the
shared inner dictionary is assigned the widget value. -/
def assembleSettings (w : String → String → Val) (outer : List (String × ℕ))
    (h : Heap) : Heap :=
  outer.foldl (fun hh ca => hwrite hh ca.2 (refreshLeaves w ca.1 (hh ca.2))) h

/-- Read a two-level settings dictionary through the heap. -/
def readSettings (h : Heap) (outer : List (String × ℕ)) : SettingsDict :=
  outer.map (fun ca => (ca.1, h ca.2))

/-- The category that writes an address last during one assembly pass. -/
def lastWriter : List (String × ℕ) → ℕ → Option String
  | [], _ => none
  | ca :: rest, a => ofirst (lastWriter rest a) (if ca.2 = a then some ca.1 else none)

theorem refreshLeaves_refreshLeaves (w : String → String → Val) (c c' : String)
    (inner : List (String × Val)) :
    refreshLeaves w c (refreshLeaves w c' inner) = refreshLeaves w c inner := by
  simp [refreshLeaves, List.map_map, Function.comp]

theorem assembleSettings_apply (w : String → String → Val)
    (outer : List (String × ℕ)) (h : Heap) (a : ℕ) :
    assembleSettings w outer h a =
      match lastWriter outer a with
      | none => h a
      | some c => refreshLeaves w c (h a) := by
  induction outer generalizing h with
  | nil => rfl
  | cons ca rest ih =>
    show assembleSettings w rest
      (hwrite h ca.2 (refreshLeaves w ca.1 (h ca.2))) a = _
    rw [ih]
    by_cases ha : ca.2 = a
    · subst ha
      show _ = match ofirst (lastWriter rest ca.2)
          (if ca.2 = ca.2 then some ca.1 else none) with
        | none => h ca.2
        | some c => refreshLeaves w c (h ca.2)
      rw [if_pos rfl]
      cases hl : lastWriter rest ca.2 with
      | none => simp [hl, ofirst, hwrite]
      | some c => simp [hl, ofirst, hwrite, refreshLeaves_refreshLeaves]
    · show _ = match ofirst (lastWriter rest a)
          (if ca.2 = a then some ca.1 else none) with
        | none => h a
        | some c => refreshLeaves w c (h a)
      rw [if_neg ha]
      have hw : hwrite h ca.2 (refreshLeaves w ca.1 (h ca.2)) a = h a := by
        have hne : a ≠ ca.2 := Ne.symm ha
        simp [hwrite, if_neg hne]
      cases hl : lastWriter rest a with
      | none => simp only [hl, ofirst, hw]
      | some c => simp only [hl, ofirst, hw]

/-! ## The app's `plot_options` dictionary (src/app.py lines 171-200)

The app collects the cosmetic widget values, then — depending on the
"Display Title" checkbox — either adds `title` (when the custom title text is
non-empty), `name_on = True` and the `font_size`/`font_color`/`text_x`/
`text_y`/`text_rotation` values, or sets `name_on = False` and pops `title`
(a no-op, since `title` is only ever added in the enabled branch).
-/

/-- src/app.py lines 171-200: the `plot_options` dictionary handed to
`generate_map`. -/
def appBuildPlotOptions (map_shape bg_shape bg_color : String) (bg_size : ℤ)
    (contour_color : String) (contour_width : ℤ) (display_title : Bool)
    (custom_title : String) (title_font_size : ℤ) (title_font_color : String)
    (title_x title_y title_rotation : ℤ) : List (String × PVal) :=
  let p : List (String × PVal) :=
    [("shape", .str map_shape),
     ("bg_shape", if bg_shape = "None" then .pnone else .str bg_shape),
     ("bg_color", .str bg_color),
     ("bg_buffer", .int bg_size),
     ("contour_color", .str contour_color),
     ("contour_width", .int contour_width)]
  if display_title then
    let p := if custom_title ≠ "" then dset p "title" (.str custom_title) else p
    let p := dset p "name_on" (.bool true)
    let p := dset p "font_size" (.int title_font_size)
    let p := dset p "font_color" (.str title_font_color)
    let p := dset p "text_x" (.int title_x)
    let p := dset p "text_y" (.int title_y)
    dset p "text_rotation" (.int title_rotation)
  else
    dset p "name_on" (.bool false)

/-! ## The spec's merge semantics, for comparison with the code's merge -/

/-- Following claim C2's words (refinement reference, not the code): the
assembled style's categories and leaf keys are exactly those of the base
style, each leaf value is the override's value when the override supplies
that exact (category, key) pair and the base value otherwise, and categories
or keys present only in the overrides do not appear in the result. -/
def styleMergeClaimOK (base ov merged : SettingsDict) : Bool :=
  decide (merged.map Prod.fst = base.map Prod.fst) &&
  base.all (fun cp =>
    match dlookup merged cp.1 with
    | none => false
    | some m =>
      decide (m.map Prod.fst = cp.2.map Prod.fst) &&
      cp.2.all (fun kv =>
        decide (dlookup m kv.1 =
          some (match dlookup ov cp.1 with
                | some od => (dlookup od kv.1).getD kv.2
                | none => kv.2))))

/-- Following claim C8's words (refinement reference, not the code):
replace-by-key semantics over the default landcover's categories — for each
category, the merged selection is the override's whole entry when present
(so a zero-item override stays zero items) and the default's entry
otherwise. -/
def landcoverMergeClaimOK (default_lc custom merged : SettingsDict) : Bool :=
  decide (merged.map Prod.fst = default_lc.map Prod.fst) &&
  default_lc.all (fun cp =>
    decide (dlookup merged cp.1 = ofirst (dlookup custom cp.1) (some cp.2)))

/-! ## Concrete instances used by counterexamples and witnesses

`STYLES` and `LANDCOVER_CLASSES` live in the external `prettymapp.settings`
module; these instances mirror their shape (style: category to colour
leaves; landcover: category to boolean or tag-list leaves).
-/

/-- A style preset shaped like `STYLES["Peach"]`. -/
def exPeach : SettingsDict :=
  [("urban", [("fc", .str "#fff"), ("ec", .str "#111")]),
   ("water", [("fc", .str "#00f")])]

/-- A style table owning only the "Peach" preset. -/
def exStyles : List (String × SettingsDict) := [("Peach", exPeach)]

/-- Landcover defaults shaped like `LANDCOVER_CLASSES`. -/
def exLandcover : SettingsDict :=
  [("urban", [("building", .vbool true)]),
   ("water", [("natural", .vlist ["water", "bay"])])]

/-- A pipeline environment whose collaborators succeed: `get_aoi` yields a
handle and the fetch collaborator returns a five-row table whose geometry
column is in the geographic EPSG:4326 system. -/
def envEx : Env where
  STYLES := exStyles
  LANDCOVER_CLASSES := exLandcover
  get_aoi := fun _ => .ok 0
  get_osm_geometries := fun _ _ => ⟨4326, 5⟩

/-- An environment whose AOI construction raises. -/
def envAoiFail : Env where
  STYLES := exStyles
  LANDCOVER_CLASSES := exLandcover
  get_aoi := fun _ => .error "geocoding failed"
  get_osm_geometries := fun _ _ => ⟨4326, 5⟩

/-- A drawn rectangle over longitude [10, 11], latitude [50, 51] (a small
area in Germany, as in the spec's end-to-end scenario; its centroid falls in
UTM zone 32 north). -/
def geomEx : Geometry :=
  .polygon [(10, 50), (11, 50), (11, 51), (10, 51)]

/-! ## Lookup facts about `buildPlotParams` -/

theorem dlookup_copyOpt_ne (p po : List (String × PVal)) (dst src k : String)
    (h : k ≠ dst) : dlookup (copyOpt p po dst src) k = dlookup p k := by
  unfold copyOpt
  cases dlookup po src with
  | none => rfl
  | some v => exact dlookup_dset_ne p dst k v h

/-- With a truthy `plot_options` whose `display_title` entry is absent or
falsy, `plot_params` is the cosmetic copies plus `name_on`; none of the
font/position keys is reached. -/
theorem buildPlotParams_titleOff (df : FeatureTable) (bds : ℚ × ℚ × ℚ × ℚ)
    (ds : SettingsDict) (po : List (String × PVal)) (hne : po ≠ [])
    (hoff : pyTruthy ((dlookup po "display_title").getD (.bool false)) = false) :
    buildPlotParams df bds ds po =
      dset (copyOpt (copyOpt (copyOpt (copyOpt (copyOpt (copyOpt
        [("df", .table df), ("aoi_bounds", .bnds bds),
         ("draw_settings", .settings ds)]
        po "shape" "shape") po "bg_shape" "bg_shape") po "bg_color" "bg_color")
        po "bg_buffer" "bg_buffer") po "contour_color" "contour_color")
        po "contour_width" "contour_width")
        "name_on" ((dlookup po "display_title").getD (.bool false)) := by
  simp only [buildPlotParams]
  rw [if_neg hne]
  simp [hoff]

/-- A key that is not one of the assigned destination keys keeps its value
from the initial three-entry `plot_params`. -/
theorem buildPlotParams_other_key (df : FeatureTable) (bds : ℚ × ℚ × ℚ × ℚ)
    (ds : SettingsDict) (po : List (String × PVal)) (k : String)
    (h1 : k ≠ "shape") (h2 : k ≠ "bg_shape") (h3 : k ≠ "bg_color")
    (h4 : k ≠ "bg_buffer") (h5 : k ≠ "contour_color") (h6 : k ≠ "contour_width")
    (h7 : k ≠ "name_on") (h8 : k ≠ "font_size") (h9 : k ≠ "font_color")
    (h10 : k ≠ "text_x") (h11 : k ≠ "text_y") (h12 : k ≠ "text_rotation") :
    dlookup (buildPlotParams df bds ds po) k =
      dlookup [("df", .table df), ("aoi_bounds", .bnds bds),
        ("draw_settings", .settings ds)] k := by
  simp only [buildPlotParams]
  by_cases hpo : po = []
  · rw [if_pos hpo]
  · rw [if_neg hpo]
    by_cases ht : pyTruthy ((dlookup po "display_title").getD (.bool false))
    · simp only [ht, if_true]
      rw [dlookup_copyOpt_ne _ _ _ _ _ h12, dlookup_copyOpt_ne _ _ _ _ _ h11,
        dlookup_copyOpt_ne _ _ _ _ _ h10, dlookup_copyOpt_ne _ _ _ _ _ h9,
        dlookup_copyOpt_ne _ _ _ _ _ h8, dlookup_dset_ne _ _ _ _ h7,
        dlookup_copyOpt_ne _ _ _ _ _ h6, dlookup_copyOpt_ne _ _ _ _ _ h5,
        dlookup_copyOpt_ne _ _ _ _ _ h4, dlookup_copyOpt_ne _ _ _ _ _ h3,
        dlookup_copyOpt_ne _ _ _ _ _ h2, dlookup_copyOpt_ne _ _ _ _ _ h1]
    · simp only [Bool.not_eq_true] at ht
      rw [ht, if_neg Bool.false_ne_true]
      rw [dlookup_dset_ne _ _ _ _ h7,
        dlookup_copyOpt_ne _ _ _ _ _ h6, dlookup_copyOpt_ne _ _ _ _ _ h5,
        dlookup_copyOpt_ne _ _ _ _ _ h4, dlookup_copyOpt_ne _ _ _ _ _ h3,
        dlookup_copyOpt_ne _ _ _ _ _ h2, dlookup_copyOpt_ne _ _ _ _ _ h1]

/-- The table handed to `Plot` is the `df` entry of `plot_params`. -/
theorem dlookup_buildPlotParams_df (df : FeatureTable) (bds : ℚ × ℚ × ℚ × ℚ)
    (ds : SettingsDict) (po : List (String × PVal)) :
    dlookup (buildPlotParams df bds ds po) "df" = some (.table df) := by
  rw [buildPlotParams_other_key df bds ds po "df"
    (by decide) (by decide) (by decide) (by decide) (by decide) (by decide)
    (by decide) (by decide) (by decide) (by decide) (by decide) (by decide)]
  rfl

/-! ## Inversion of a successful `generate_map` run -/

theorem generate_map_ok_inv (env : Env) (geometry : Geometry) (style : String)
    (cs cl : SettingsDict) (po : List (String × PVal)) (pc : PlotCall)
    (df : FeatureTable) (tr : List Event)
    (h : generate_map env geometry style cs cl po = (.ok (pc, df), tr)) :
    ∃ bds aoi base,
      boundsOf geometry = .ok bds ∧
      env.get_aoi geometry = .ok aoi ∧
      style_lookup env.STYLES style = .ok base ∧
      df = env.get_osm_geometries aoi (chooseLandcover cl env.LANDCOVER_CLASSES) ∧
      pc = ⟨buildPlotParams df bds (dupdate base cs) po⟩ ∧
      tr = [.fetchCall, .renderCall] := by
  unfold generate_map at h
  cases hb : boundsOf geometry with
  | error e => rw [hb] at h; simp at h
  | ok bds =>
    rw [hb] at h
    cases ha : env.get_aoi geometry with
    | error msg => rw [ha] at h; simp at h
    | ok aoi =>
      rw [ha] at h
      cases hs : style_lookup env.STYLES style with
      | error e => rw [hs] at h; simp at h
      | ok base =>
        rw [hs] at h
        obtain ⟨h1, h2⟩ := Prod.mk.injEq .. |>.mp h
        obtain ⟨h3, h4⟩ := Prod.mk.injEq .. |>.mp (Except.ok.inj h1)
        exact ⟨bds, aoi, base, rfl, rfl, rfl, h4.symm,
          h3 ▸ h4 ▸ rfl, h2.symm⟩

theorem dset_ne_nil {α : Type} (d : List (String × α)) (k : String) (v : α) :
    dset d k v ≠ [] := by
  unfold dset
  by_cases hc : dcontains d k
  · rw [if_pos hc]
    cases d with
    | nil => simp [dcontains] at hc
    | cons p rest => simp
  · rw [if_neg hc]
    simp

/-- Under a truthy `plot_options` with absent/falsy `display_title`, a key
distinct from the cosmetic destinations and absent from the initial
`plot_params` entries is absent from the result. -/
theorem titleOff_key_none (df : FeatureTable) (bds : ℚ × ℚ × ℚ × ℚ)
    (ds : SettingsDict) (po : List (String × PVal)) (k : String) (hne : po ≠ [])
    (hoff : pyTruthy ((dlookup po "display_title").getD (.bool false)) = false)
    (h7 : k ≠ "name_on") (h6 : k ≠ "contour_width") (h5 : k ≠ "contour_color")
    (h4 : k ≠ "bg_buffer") (h3 : k ≠ "bg_color") (h2 : k ≠ "bg_shape")
    (h1 : k ≠ "shape")
    (h0 : dlookup [("df", PVal.table df), ("aoi_bounds", PVal.bnds bds),
      ("draw_settings", PVal.settings ds)] k = none) :
    dlookup (buildPlotParams df bds ds po) k = none := by
  rw [buildPlotParams_titleOff df bds ds po hne hoff,
    dlookup_dset_ne _ _ _ _ h7, dlookup_copyOpt_ne _ _ _ _ _ h6,
    dlookup_copyOpt_ne _ _ _ _ _ h5, dlookup_copyOpt_ne _ _ _ _ _ h4,
    dlookup_copyOpt_ne _ _ _ _ _ h3, dlookup_copyOpt_ne _ _ _ _ _ h2,
    dlookup_copyOpt_ne _ _ _ _ _ h1, h0]

/-! ## Claim C1 -/

/-- C1: for every bounding box whose centroid (cx, cy) has cx in [-180, 180)
and cy in [-80, 84], the zone `floor((cx + 180) / 6) + 1` lies in [1, 60]
(so the clamp is the identity), and the resolved identifier is
32600 + zone when cy ≥ 0 and 32700 + zone otherwise; a centroid at
latitude 0 resolves to the northern hemisphere code.  (`resolve_crs` is
modelled from the spec: the Projection Resolver has no implementation under
src/.) -/
theorem C1_resolve_crs_utm (bbox : ℚ × ℚ × ℚ × ℚ)
    (h1 : -180 ≤ (bbox.1 + bbox.2.2.1) / 2)
    (h2 : (bbox.1 + bbox.2.2.1) / 2 < 180)
    (h3 : -80 ≤ (bbox.2.1 + bbox.2.2.2) / 2)
    (h4 : (bbox.2.1 + bbox.2.2.2) / 2 ≤ 84) :
    1 ≤ utm_zone ((bbox.1 + bbox.2.2.1) / 2) ∧
    utm_zone ((bbox.1 + bbox.2.2.1) / 2) ≤ 60 ∧
    utm_zone ((bbox.1 + bbox.2.2.1) / 2) =
      ⌊((bbox.1 + bbox.2.2.1) / 2 + 180) / 6⌋ + 1 ∧
    resolve_crs bbox =
      (if 0 ≤ (bbox.2.1 + bbox.2.2.2) / 2 then 32600 else 32700) +
        utm_zone ((bbox.1 + bbox.2.2.1) / 2) ∧
    ((bbox.2.1 + bbox.2.2.2) / 2 = 0 →
      resolve_crs bbox = 32600 + utm_zone ((bbox.1 + bbox.2.2.1) / 2)) := by
  obtain ⟨minx, miny, maxx, maxy⟩ := bbox
  simp only at h1 h2 h3 h4 ⊢
  have hq0 : (0 : ℚ) ≤ ((minx + maxx) / 2 + 180) / 6 := by
    apply div_nonneg _ (by norm_num)
    linarith
  have hq1 : ((minx + maxx) / 2 + 180) / 6 < 60 := by
    rw [div_lt_iff₀ (by norm_num : (0 : ℚ) < 6)]
    linarith
  have hf0 : 0 ≤ ⌊((minx + maxx) / 2 + 180) / 6⌋ := Int.floor_nonneg.mpr hq0
  have hf1 : ⌊((minx + maxx) / 2 + 180) / 6⌋ < 60 := by
    apply Int.floor_lt.mpr
    push_cast
    exact hq1
  have hz : utm_zone ((minx + maxx) / 2) = ⌊((minx + maxx) / 2 + 180) / 6⌋ + 1 := by
    unfold utm_zone
    rw [min_eq_right (by omega), max_eq_right (by omega)]
  refine ⟨by omega, by omega, hz, ?_, ?_⟩
  · rfl
  · intro h0
    show (if 0 ≤ (miny + maxy) / 2 then (32600 : ℤ) else 32700) +
      utm_zone ((minx + maxx) / 2) = _
    rw [if_pos (le_of_eq h0.symm)]

theorem C1_witness :
    ((-180 : ℚ) ≤ ((10 : ℚ) + 11) / 2 ∧ ((10 : ℚ) + 11) / 2 < 180 ∧
      (-80 : ℚ) ≤ ((50 : ℚ) + 51) / 2 ∧ ((50 : ℚ) + 51) / 2 ≤ 84) ∧
    resolve_crs (10, 50, 11, 51) =
      (if (0 : ℚ) ≤ ((50 : ℚ) + 51) / 2 then 32600 else 32700) +
        utm_zone (((10 : ℚ) + 11) / 2) ∧
    resolve_crs (10, 50, 11, 51) = 32632 := by
  refine ⟨by norm_num, ?_, ?_⟩
  · exact (C1_resolve_crs_utm (10, 50, 11, 51) (by norm_num)
      (by norm_num) (by norm_num) (by norm_num)).2.2.2.1
  · norm_num [resolve_crs, utm_zone]

/-! ## Claim C5 -/

/-- C5 fails on the code: `generate_map` computes `shape(geometry).bounds`
with no degeneracy check (src/utils.py lines 36-39), so a degenerate point
succeeds and yields the zero-sized bounding box (0, 0, 0, 0) instead of
failing with `InvalidGeometry`; the full pipeline then proceeds and renders
with those bounds. -/
theorem C5_counterexample :
    boundsOf (.point 0 0) = .ok (0, 0, 0, 0) ∧
    boundsOf (.point 0 0) ≠ .error .invalidGeometry ∧
    boundsOf (.polygon [(1, 2), (1, 3), (1, 2)]) = .ok (1, 2, 1, 3) ∧
    (generate_map envEx (.point 0 0) "Peach" [] [] []).1 =
      .ok (⟨[("df", .table ⟨4326, 5⟩), ("aoi_bounds", .bnds (0, 0, 0, 0)),
             ("draw_settings", .settings exPeach)]⟩, ⟨4326, 5⟩) := by
  refine ⟨rfl, by decide, by decide, by decide⟩

/-- C5 amended: geometry normalization performs no degeneracy check — a
point input and a polygon with coincident bounds succeed with their
zero-sized bounding boxes; only inputs that `shape` cannot decode (malformed
or empty) fail with `InvalidGeometry`. -/
theorem C5_amended (x y : ℚ) :
    boundsOf (.point x y) = .ok (x, y, x, y) ∧
    boundsOf (.polygon [(x, y), (x, y), (x, y)]) = .ok (x, y, x, y) ∧
    boundsOf .invalid = .error .invalidGeometry ∧
    boundsOf (.polygon []) = .error .invalidGeometry := by
  refine ⟨rfl, ?_, rfl, rfl⟩
  simp [boundsOf, min_self, max_self]

/-! ## Claim C9 -/

/-- C9: settings assembly surfaces `UnknownStyleName` exactly for the style
names absent from the style table (src/utils.py line 64, `STYLES[style]`),
with no fallback substitution — a present name always yields its own
preset. -/
theorem C9_style_lookup (styles : List (String × SettingsDict)) (name : String) :
    (dlookup styles name = none →
      style_lookup styles name = .error (.unknownStyleName name)) ∧
    (∀ s, dlookup styles name = some s → style_lookup styles name = .ok s) := by
  constructor
  · intro h
    simp [style_lookup, h]
  · intro s h
    simp [style_lookup, h]

theorem C9_witness :
    (dlookup exStyles "Auburn" = none ∧
      style_lookup exStyles "Auburn" = .error (.unknownStyleName "Auburn")) ∧
    (dlookup exStyles "Peach" = some exPeach ∧
      style_lookup exStyles "Peach" = .ok exPeach) :=
  ⟨⟨by decide, (C9_style_lookup exStyles "Auburn").1 (by decide)⟩,
   ⟨by decide, (C9_style_lookup exStyles "Peach").2 exPeach (by decide)⟩⟩

/-! ## Claim C2 -/

/-- A base style and an override mapping exercising the merge. -/
def c2Base : SettingsDict :=
  [("colors", [("bg", .str "#fff"), ("fg", .str "#111")])]

/-- Overrides supplying one leaf of an existing category plus a category
unknown to the base. -/
def c2Ov : SettingsDict :=
  [("colors", [("bg", .str "#000")]), ("extra", [("x", .str "1")])]

/-- C2 fails on the code: `STYLES[style].copy()` followed by
`draw_settings.update(custom_settings)` (src/utils.py lines 64-66) is a
top-level dictionary update, not a per-leaf merge — overriding the "colors"
category drops the base leaf "fg" entirely and the unknown category "extra"
appears in the result, both contradicting the claim's merge description. -/
theorem C2_counterexample :
    styleMergeClaimOK c2Base c2Ov (dupdate c2Base c2Ov) = false ∧
    dupdate c2Base c2Ov =
      [("colors", [("bg", .str "#000")]), ("extra", [("x", .str "1")])] := by
  refine ⟨by decide, by decide⟩

/-- C2 amended: the assembled style is the base updated at the category
level — looking up any category yields the override's whole category mapping
when the overrides contain that category (its leaf keys replacing the base's
wholesale) and the base's mapping otherwise, and categories present only in
the overrides do appear in the result. -/
theorem C2_amended (base ov : SettingsDict) (ho : (ov.map Prod.fst).Nodup)
    (cat : String) :
    dlookup (dupdate base ov) cat = ofirst (dlookup ov cat) (dlookup base cat) :=
  dlookup_dupdate base ov ho cat

theorem C2_witness :
    (c2Ov.map Prod.fst).Nodup ∧
    dlookup (dupdate c2Base c2Ov) "colors" = some [("bg", .str "#000")] ∧
    dlookup (dupdate c2Base c2Ov) "extra" = some [("x", .str "1")] ∧
    dlookup (dupdate c2Base c2Ov) "water" = none := by
  refine ⟨by decide, ?_, ?_, ?_⟩
  · rw [C2_amended c2Base c2Ov (by decide) "colors"]
    decide
  · rw [C2_amended c2Base c2Ov (by decide) "extra"]
    decide
  · rw [C2_amended c2Base c2Ov (by decide) "water"]
    decide

/-! ## Claim C8 -/

/-- A landcover override selecting a zero-item list for one category and
leaving the other category unmentioned. -/
def c8Custom : SettingsDict := [("urban", [("building", .vlist [])])]

/-- C8 fails on the code: `custom_landcover if custom_landcover else
get_default_landcover()` (src/utils.py line 57) replaces the defaults
wholesale rather than merging by key — a category absent from a non-empty
override requests nothing instead of falling back to the default selection,
so the merge is not replace-by-key. -/
theorem C8_counterexample :
    landcoverMergeClaimOK exLandcover c8Custom
      (chooseLandcover c8Custom exLandcover) = false ∧
    chooseLandcover c8Custom exLandcover = c8Custom ∧
    dlookup (chooseLandcover c8Custom exLandcover) "water" = none ∧
    dlookup exLandcover "water" = some [("natural", .vlist ["water", "bay"])] := by
  refine ⟨by decide, by decide, by decide, by decide⟩

/-- C8 amended: a non-empty landcover override replaces the default mapping
wholesale — every category it mentions keeps exactly its overridden
selection (a zero-item selection stays zero items and is never defaulted),
while categories it does not mention are dropped rather than defaulted; an
empty (or `None`) override is replaced by the full default mapping. -/
theorem C8_amended (custom default_lc : SettingsDict) :
    (custom ≠ [] → chooseLandcover custom default_lc = custom) ∧
    (custom = [] → chooseLandcover custom default_lc = default_lc) ∧
    (∀ cat sel, custom ≠ [] → dlookup custom cat = some sel →
      dlookup (chooseLandcover custom default_lc) cat = some sel) := by
  unfold chooseLandcover
  refine ⟨fun h => by rw [if_neg h], fun h => by rw [if_pos h], ?_⟩
  intro cat sel h hc
  rw [if_neg h]
  exact hc

theorem C8_witness :
    (c8Custom ≠ [] ∧ chooseLandcover c8Custom exLandcover = c8Custom) ∧
    (dlookup c8Custom "urban" = some [("building", .vlist [])] ∧
      dlookup (chooseLandcover c8Custom exLandcover) "urban" =
        some [("building", .vlist [])]) ∧
    (([] : SettingsDict) = [] ∧
      chooseLandcover [] exLandcover = exLandcover) := by
  refine ⟨⟨by decide, (C8_amended c8Custom exLandcover).1 (by decide)⟩,
    ⟨by decide, (C8_amended c8Custom exLandcover).2.2 "urban"
      [("building", .vlist [])] (by decide) (by decide)⟩,
    ⟨rfl, (C8_amended [] exLandcover).2.1 rfl⟩⟩

/-! ## Claim C4 -/

/-- C4 fails on the code: with a well-formed geometry and a successful AOI,
an unknown style name is only detected at `STYLES[style]` (src/utils.py
line 64), which runs after the `get_osm_geometries` fetch at line 58 — the
run fails with `UnknownStyleName` yet the fetch collaborator has already
been invoked. -/
theorem C4_counterexample :
    generate_map envEx geomEx "Auburn" [] [] [] =
      (.error (.unknownStyleName "Auburn"), [.fetchCall]) ∧
    Event.fetchCall ∈ (generate_map envEx geomEx "Auburn" [] [] []).2 := by
  refine ⟨by decide, by decide⟩

/-- C4 amended: failures of geometry decoding and of AOI construction stop
the pipeline before the fetch collaborator is invoked, but a style-name
validation failure is raised only after the fetch collaborator has run; the
render collaborator is never invoked on any of these failures. -/
theorem C4_amended :
    (∀ (env : Env) (g : Geometry) (s : String) (cs cl : SettingsDict)
        (po : List (String × PVal)) (e : Err), boundsOf g = .error e →
      generate_map env g s cs cl po = (.error e, [])) ∧
    (∀ (env : Env) (g : Geometry) (s : String) (cs cl : SettingsDict)
        (po : List (String × PVal)) (bds : ℚ × ℚ × ℚ × ℚ) (msg : String),
      boundsOf g = .ok bds → env.get_aoi g = .error msg →
      generate_map env g s cs cl po = (.error (.aoiFailed msg), [])) ∧
    (∀ (env : Env) (g : Geometry) (s : String) (cs cl : SettingsDict)
        (po : List (String × PVal)) (bds : ℚ × ℚ × ℚ × ℚ) (aoi : AOI),
      boundsOf g = .ok bds → env.get_aoi g = .ok aoi →
      dlookup env.STYLES s = none →
      generate_map env g s cs cl po =
        (.error (.unknownStyleName s), [.fetchCall])) := by
  refine ⟨?_, ?_, ?_⟩
  · intro env g s cs cl po e hb
    unfold generate_map
    rw [hb]
  · intro env g s cs cl po bds msg hb ha
    unfold generate_map
    rw [hb, ha]
  · intro env g s cs cl po bds aoi hb ha hs
    unfold generate_map
    rw [hb, ha]
    simp [style_lookup, hs]

theorem C4_witness :
    (boundsOf .invalid = .error .invalidGeometry ∧
      generate_map envEx .invalid "Peach" [] [] [] =
        (.error .invalidGeometry, [])) ∧
    (boundsOf geomEx = .ok (10, 50, 11, 51) ∧
      envAoiFail.get_aoi geomEx = .error "geocoding failed" ∧
      generate_map envAoiFail geomEx "Peach" [] [] [] =
        (.error (.aoiFailed "geocoding failed"), [])) ∧
    (envEx.get_aoi geomEx = .ok 0 ∧ dlookup envEx.STYLES "Auburn" = none ∧
      generate_map envEx geomEx "Auburn" [] [] [] =
        (.error (.unknownStyleName "Auburn"), [.fetchCall])) := by
  refine ⟨⟨by decide, C4_amended.1 envEx .invalid "Peach" [] [] []
      .invalidGeometry (by decide)⟩,
    ⟨by decide, by decide, C4_amended.2.1 envAoiFail geomEx "Peach" [] [] []
      (10, 50, 11, 51) "geocoding failed" (by decide) (by decide)⟩,
    ⟨by decide, by decide, C4_amended.2.2 envEx geomEx "Auburn" [] [] []
      (10, 50, 11, 51) 0 (by decide) (by decide) (by decide)⟩⟩

/-! ## Claim C3 -/

/-- C3 fails on the code: `generate_map` performs no reprojection — the
table returned by the fetch collaborator (here in its fetch-native
EPSG:4326) is handed to `Plot` and returned as-is (src/utils.py lines
58-119), even though the resolved projected identifier for this bounding box
would be 32632. -/
theorem C3_counterexample :
    (generate_map envEx geomEx "Peach" [] [] []).1 =
      .ok (⟨[("df", .table ⟨4326, 5⟩), ("aoi_bounds", .bnds (10, 50, 11, 51)),
             ("draw_settings", .settings exPeach)]⟩, ⟨4326, 5⟩) ∧
    resolve_crs (10, 50, 11, 51) = 32632 ∧
    ((⟨4326, 5⟩ : FeatureTable).crs : ℤ) ≠ 32632 := by
  refine ⟨by decide, by norm_num [resolve_crs, utm_zone], by decide⟩

/-- C3 amended: on every successful run the feature table handed to the
render collaborator is exactly the fetch collaborator's output, still in its
fetch-native reference system (no reprojection happens anywhere in the
pipeline), and that same table is returned to the caller. -/
theorem C3_amended (env : Env) (geometry : Geometry) (style : String)
    (cs cl : SettingsDict) (po : List (String × PVal)) (pc : PlotCall)
    (df : FeatureTable) (tr : List Event)
    (h : generate_map env geometry style cs cl po = (.ok (pc, df), tr)) :
    (∃ aoi, env.get_aoi geometry = .ok aoi ∧
        df = env.get_osm_geometries aoi
          (chooseLandcover cl env.LANDCOVER_CLASSES)) ∧
    dlookup pc.params "df" = some (.table df) := by
  obtain ⟨bds, aoi, base, hb, ha, hs, hdf, hpc, htr⟩ :=
    generate_map_ok_inv env geometry style cs cl po pc df tr h
  refine ⟨⟨aoi, ha, hdf⟩, ?_⟩
  rw [hpc]
  exact dlookup_buildPlotParams_df df bds (dupdate base cs) po

theorem C3_witness :
    generate_map envEx geomEx "Peach" [] [] [] =
      (.ok (⟨buildPlotParams ⟨4326, 5⟩ (10, 50, 11, 51) exPeach []⟩, ⟨4326, 5⟩),
       [.fetchCall, .renderCall]) ∧
    ((∃ aoi, envEx.get_aoi geomEx = .ok aoi ∧
        (⟨4326, 5⟩ : FeatureTable) = envEx.get_osm_geometries aoi
          (chooseLandcover [] envEx.LANDCOVER_CLASSES)) ∧
      dlookup (PlotCall.mk (buildPlotParams ⟨4326, 5⟩ (10, 50, 11, 51)
        exPeach [])).params "df" = some (.table ⟨4326, 5⟩)) := by
  refine ⟨by decide, C3_amended envEx geomEx "Peach" [] [] []
    ⟨buildPlotParams ⟨4326, 5⟩ (10, 50, 11, 51) exPeach []⟩ ⟨4326, 5⟩
    [.fetchCall, .renderCall] (by decide)⟩

/-! ## Claim C6 -/

/-- A truthy `plot_options` without any title-related key. -/
def c6po : List (String × PVal) := [("shape", .str "circle")]

/-- A `plot_options` with the title disabled yet title-text, font and
position values supplied. -/
def c6wpo : List (String × PVal) :=
  [("display_title", .bool false), ("text_size", .int 25),
   ("text_x", .int 3), ("title", .str "Hi")]

/-- C6 fails on the code: `plot_params["name_on"] =
plot_options.get("display_title", False)` (src/utils.py line 93) runs for
every truthy `plot_options`, so the title-toggle key `name_on` is forwarded
to the render collaborator even when no corresponding key is present in the
overrides — contradicting "only keys explicitly present in the overrides are
forwarded at all". -/
theorem C6_counterexample :
    dlookup c6po "display_title" = none ∧
    dlookup c6po "name_on" = none ∧
    dlookup (buildPlotParams ⟨4326, 5⟩ (0, 0, 1, 1) exPeach c6po) "name_on" =
      some (.bool false) := by
  refine ⟨by decide, by decide, by decide⟩

/-- C6 amended: with the title block disabled (absent or falsy
`display_title`), the forwarded parameters contain no title-text, font or
position keys, whatever values were supplied for them; however the
title-toggle key `name_on` is always forwarded (carrying the raw
`display_title` value, or `False` when absent) whenever any overrides are
supplied. -/
theorem C6_amended (df : FeatureTable) (bds : ℚ × ℚ × ℚ × ℚ)
    (ds : SettingsDict) (po : List (String × PVal)) (hne : po ≠ [])
    (hoff : pyTruthy ((dlookup po "display_title").getD (.bool false)) = false) :
    dlookup (buildPlotParams df bds ds po) "name_on" =
      some ((dlookup po "display_title").getD (.bool false)) ∧
    dlookup (buildPlotParams df bds ds po) "font_size" = none ∧
    dlookup (buildPlotParams df bds ds po) "font_color" = none ∧
    dlookup (buildPlotParams df bds ds po) "text_x" = none ∧
    dlookup (buildPlotParams df bds ds po) "text_y" = none ∧
    dlookup (buildPlotParams df bds ds po) "text_rotation" = none ∧
    dlookup (buildPlotParams df bds ds po) "title" = none := by
  refine ⟨?_, ?_, ?_, ?_, ?_, ?_, ?_⟩
  · rw [buildPlotParams_titleOff df bds ds po hne hoff]
    exact dlookup_dset_self _ _ _
  · exact titleOff_key_none df bds ds po "font_size" hne hoff (by decide)
      (by decide) (by decide) (by decide) (by decide) (by decide) (by decide)
      (by simp [dlookup])
  · exact titleOff_key_none df bds ds po "font_color" hne hoff (by decide)
      (by decide) (by decide) (by decide) (by decide) (by decide) (by decide)
      (by simp [dlookup])
  · exact titleOff_key_none df bds ds po "text_x" hne hoff (by decide)
      (by decide) (by decide) (by decide) (by decide) (by decide) (by decide)
      (by simp [dlookup])
  · exact titleOff_key_none df bds ds po "text_y" hne hoff (by decide)
      (by decide) (by decide) (by decide) (by decide) (by decide) (by decide)
      (by simp [dlookup])
  · exact titleOff_key_none df bds ds po "text_rotation" hne hoff (by decide)
      (by decide) (by decide) (by decide) (by decide) (by decide) (by decide)
      (by simp [dlookup])
  · exact titleOff_key_none df bds ds po "title" hne hoff (by decide)
      (by decide) (by decide) (by decide) (by decide) (by decide) (by decide)
      (by simp [dlookup])

theorem C6_witness :
    (c6wpo ≠ [] ∧
      pyTruthy ((dlookup c6wpo "display_title").getD (.bool false)) = false) ∧
    (dlookup (buildPlotParams ⟨4326, 5⟩ (0, 0, 1, 1) exPeach c6wpo) "name_on" =
        some ((dlookup c6wpo "display_title").getD (.bool false)) ∧
      dlookup (buildPlotParams ⟨4326, 5⟩ (0, 0, 1, 1) exPeach c6wpo)
        "font_size" = none ∧
      dlookup (buildPlotParams ⟨4326, 5⟩ (0, 0, 1, 1) exPeach c6wpo)
        "font_color" = none ∧
      dlookup (buildPlotParams ⟨4326, 5⟩ (0, 0, 1, 1) exPeach c6wpo)
        "text_x" = none ∧
      dlookup (buildPlotParams ⟨4326, 5⟩ (0, 0, 1, 1) exPeach c6wpo)
        "text_y" = none ∧
      dlookup (buildPlotParams ⟨4326, 5⟩ (0, 0, 1, 1) exPeach c6wpo)
        "text_rotation" = none ∧
      dlookup (buildPlotParams ⟨4326, 5⟩ (0, 0, 1, 1) exPeach c6wpo)
        "title" = none) :=
  ⟨⟨by decide, by decide⟩,
    C6_amended ⟨4326, 5⟩ (0, 0, 1, 1) exPeach c6wpo (by decide) (by decide)⟩

/-! ## Claim C10 -/

/-- A `plot_options` using the app's key names (`name_on`, `font_size`,
`font_color`), which `generate_map` never reads. -/
def c10po : List (String × PVal) :=
  [("name_on", .bool true), ("font_size", .int 25),
   ("font_color", .str "#2F3034")]

/-- C10: when `plot_options` is non-empty and has no "display_title" key,
the render collaborator receives `name_on = False` and no
font-size/font-colour/position keys — any supplied `name_on`, `font_size` or
`font_color` entries are ignored, since src/utils.py lines 92-113 read
"display_title", "text_size" and "text_color" instead; and the app
(src/app.py lines 171-200) never emits a "display_title" key at all, so an
app-driven render call never has its title block enabled. -/
theorem C10_title_keys :
    (∀ (env : Env) (g : Geometry) (s : String) (cs cl : SettingsDict)
        (po : List (String × PVal)) (pc : PlotCall) (df : FeatureTable)
        (tr : List Event),
      generate_map env g s cs cl po = (.ok (pc, df), tr) →
      po ≠ [] → dlookup po "display_title" = none →
      dlookup pc.params "name_on" = some (.bool false) ∧
      dlookup pc.params "font_size" = none ∧
      dlookup pc.params "font_color" = none ∧
      dlookup pc.params "text_x" = none ∧
      dlookup pc.params "text_y" = none ∧
      dlookup pc.params "text_rotation" = none) ∧
    (∀ (ms bs bc : String) (bsz : ℤ) (cc : String) (cw : ℤ) (dt : Bool)
        (ct : String) (tfs : ℤ) (tfc : String) (tx ty trr : ℤ),
      dlookup (appBuildPlotOptions ms bs bc bsz cc cw dt ct tfs tfc tx ty trr)
        "display_title" = none ∧
      appBuildPlotOptions ms bs bc bsz cc cw dt ct tfs tfc tx ty trr ≠ []) := by
  constructor
  · intro env g s cs cl po pc df tr h hne hdt
    obtain ⟨bds, aoi, base, hb, ha, hs, hdf, hpc, htr⟩ :=
      generate_map_ok_inv env g s cs cl po pc df tr h
    have hoff : pyTruthy ((dlookup po "display_title").getD (.bool false)) =
        false := by
      rw [hdt]
      rfl
    rw [hpc]
    refine ⟨?_, ?_, ?_, ?_, ?_, ?_⟩
    · rw [buildPlotParams_titleOff df bds (dupdate base cs) po hne hoff,
        dlookup_dset_self, hdt]
      rfl
    · exact titleOff_key_none df bds (dupdate base cs) po "font_size" hne hoff
        (by decide) (by decide) (by decide) (by decide) (by decide) (by decide)
        (by decide) (by simp [dlookup])
    · exact titleOff_key_none df bds (dupdate base cs) po "font_color" hne hoff
        (by decide) (by decide) (by decide) (by decide) (by decide) (by decide)
        (by decide) (by simp [dlookup])
    · exact titleOff_key_none df bds (dupdate base cs) po "text_x" hne hoff
        (by decide) (by decide) (by decide) (by decide) (by decide) (by decide)
        (by decide) (by simp [dlookup])
    · exact titleOff_key_none df bds (dupdate base cs) po "text_y" hne hoff
        (by decide) (by decide) (by decide) (by decide) (by decide) (by decide)
        (by decide) (by simp [dlookup])
    · exact titleOff_key_none df bds (dupdate base cs) po "text_rotation" hne
        hoff (by decide) (by decide) (by decide) (by decide) (by decide)
        (by decide) (by decide) (by simp [dlookup])
  · intro ms bs bc bsz cc cw dt ct tfs tfc tx ty trr
    constructor
    · cases dt with
      | false => simp [appBuildPlotOptions, dset, dcontains, dlookup]
      | true =>
        by_cases hct : ct = ""
        · simp [appBuildPlotOptions, hct, dset, dcontains, dlookup]
        · simp [appBuildPlotOptions, hct, dset, dcontains, dlookup]
    · cases dt with
      | false =>
        unfold appBuildPlotOptions
        rw [if_neg Bool.false_ne_true]
        exact dset_ne_nil _ _ _
      | true =>
        unfold appBuildPlotOptions
        rw [if_pos rfl]
        exact dset_ne_nil _ _ _

theorem C10_witness :
    (generate_map envEx geomEx "Peach" [] [] c10po =
        (.ok (⟨buildPlotParams ⟨4326, 5⟩ (10, 50, 11, 51) exPeach c10po⟩,
          ⟨4326, 5⟩), [.fetchCall, .renderCall]) ∧
      c10po ≠ [] ∧ dlookup c10po "display_title" = none) ∧
    (dlookup (buildPlotParams ⟨4326, 5⟩ (10, 50, 11, 51) exPeach c10po)
        "name_on" = some (.bool false) ∧
      dlookup (buildPlotParams ⟨4326, 5⟩ (10, 50, 11, 51) exPeach c10po)
        "font_size" = none ∧
      dlookup (buildPlotParams ⟨4326, 5⟩ (10, 50, 11, 51) exPeach c10po)
        "font_color" = none ∧
      dlookup (buildPlotParams ⟨4326, 5⟩ (10, 50, 11, 51) exPeach c10po)
        "text_x" = none ∧
      dlookup (buildPlotParams ⟨4326, 5⟩ (10, 50, 11, 51) exPeach c10po)
        "text_y" = none ∧
      dlookup (buildPlotParams ⟨4326, 5⟩ (10, 50, 11, 51) exPeach c10po)
        "text_rotation" = none) ∧
    (dlookup (appBuildPlotOptions "circle" "rectangle" "#EAEAEA" 2 "#2F3034" 1
        true "T" 25 "#2F3034" 0 0 0) "display_title" = none ∧
      appBuildPlotOptions "circle" "rectangle" "#EAEAEA" 2 "#2F3034" 1
        true "T" 25 "#2F3034" 0 0 0 ≠ []) :=
  ⟨⟨by decide, by decide, by decide⟩,
    C10_title_keys.1 envEx geomEx "Peach" [] [] c10po
      ⟨buildPlotParams ⟨4326, 5⟩ (10, 50, 11, 51) exPeach c10po⟩ ⟨4326, 5⟩
      [.fetchCall, .renderCall] (by decide) (by decide) (by decide),
    C10_title_keys.2 "circle" "rectangle" "#EAEAEA" 2 "#2F3034" 1
      true "T" 25 "#2F3034" 0 0 0⟩

/-! ## Claim C7 -/

/-- The outer dictionary of the modelled "Peach" preset: two categories
whose inner dictionaries live at heap addresses 0 and 1. -/
def peachOuter : List (String × ℕ) := [("urban", 0), ("water", 1)]

/-- The heap holding the preset's inner dictionaries. -/
def presetHeap : Heap := fun a =>
  if a = 0 then [("fc", .str "#fff"), ("ec", .str "#111")]
  else if a = 1 then [("fc", .str "#00f")] else []

/-- Widget inputs that override every leaf with the same colour. -/
def widget0 : String → String → Val := fun _ _ => .str "#000"

/-- C7 fails on the code: `get_default_style()` returns
`STYLES["Peach"].copy()` — a shallow copy sharing the per-category inner
dictionaries with the preset constant — and the app's widget loop assigns
`default_style[category][key] = ...` through that sharing (src/app.py lines
118-163), so after one assembly pass the preset constant itself reads the
widget values instead of its original leaves. -/
theorem C7_counterexample :
    readSettings presetHeap peachOuter =
      [("urban", [("fc", .str "#fff"), ("ec", .str "#111")]),
       ("water", [("fc", .str "#00f")])] ∧
    readSettings (assembleSettings widget0 (shallowCopy peachOuter) presetHeap)
        peachOuter =
      [("urban", [("fc", .str "#000"), ("ec", .str "#000")]),
       ("water", [("fc", .str "#000")])] ∧
    readSettings (assembleSettings widget0 (shallowCopy peachOuter) presetHeap)
        peachOuter ≠ readSettings presetHeap peachOuter := by
  refine ⟨by decide, by decide, by decide⟩

/-- C7 amended: settings assembly is idempotent — with the same widget
inputs a second pass leaves every assembled dictionary unchanged — but it is
not free of shared mutable state: the shallow copies share the inner
category dictionaries with the preset constants, so one assembly pass
rewrites the preset's own leaves to the widget values. -/
theorem C7_amended :
    (∀ (w : String → String → Val) (outer : List (String × ℕ)) (h : Heap),
      readSettings (assembleSettings w (shallowCopy outer)
          (assembleSettings w (shallowCopy outer) h)) outer =
        readSettings (assembleSettings w (shallowCopy outer) h) outer) ∧
    (∀ (w : String → String → Val) (outer : List (String × ℕ)) (h : Heap),
      assembleSettings w (shallowCopy outer)
          (assembleSettings w (shallowCopy outer) h) =
        assembleSettings w (shallowCopy outer) h) ∧
    readSettings (assembleSettings widget0 (shallowCopy peachOuter) presetHeap)
        peachOuter =
      [("urban", [("fc", .str "#000"), ("ec", .str "#000")]),
       ("water", [("fc", .str "#000")])] := by
  have hidem : ∀ (w : String → String → Val) (outer : List (String × ℕ))
      (h : Heap),
      assembleSettings w (shallowCopy outer)
          (assembleSettings w (shallowCopy outer) h) =
        assembleSettings w (shallowCopy outer) h := by
    intro w outer h
    funext a
    rw [assembleSettings_apply, assembleSettings_apply]
    cases hl : lastWriter (shallowCopy outer) a with
    | none => simp [hl]
    | some c => simp [hl, refreshLeaves_refreshLeaves]
  exact ⟨fun w outer h => by rw [hidem], hidem, by decide⟩

end PrettymapRevamped
